import Mathlib

/-!
Verification of the matching and dispatch core of the justtrackio gorilla-mux
router against its specification.

The repository sources under review provide the handler plumbing directly
(HandlerFunc, NotFound, NotFoundHandler, isNil in handler.go) together with an
extensive behavioral test suite for the dispatcher.  The dispatcher itself
(Router.Match, ServeHTTP, CORSMethodMiddleware, the metadata store) is not part
of the provided sources, so those components are modelled from the
specification, with every observable choice pinned by the behavioral contracts
asserted in the provided tests (middleware only runs on a full match, method
mismatches fall back to a 405 handler without middleware, subrouter not-found
outcomes continue the parent scan, CORS aggregation joins methods in
registration order and only sets the header when OPTIONS is among them).

Responses are modelled as a status, an ordered list of body writes, and a list
of headers.  Middleware is modelled the way the test suite observes it: a
labelled decorator that records its execution by writing its label before
delegating (or fails with its own error, for the propagation claim).  Handlers
are modelled by the status they set, the body they write and the error value
they return.
-/

deriving instance DecidableEq for Except

namespace Mux

/-- An HTTP request as far as the matching engine reads it: a method and a
path. -/
structure Request where
  method : String
  path : String
deriving Repr, DecidableEq

/-- The response sink: an optional status code, the ordered body writes, and
response headers. -/
structure Response where
  status : Option Nat := none
  body : List String := []
  headers : List (String × String) := []
deriving Repr, DecidableEq

/-- Set a response header, replacing any previous value for the same key. -/
def Response.setHeader (w : Response) (k v : String) : Response :=
  { w with headers := (k, v) :: w.headers.filter (fun q => q.1 != k) }

/-- Read back a response header. -/
def Response.getHeader (w : Response) (k : String) : Option String :=
  (w.headers.find? (fun q => q.1 == k)).map (fun q => q.2)

/-- Models http.Error from the standard library as used by handler.go: write
the status code and append the message to the body. -/
def httpError (w : Response) (msg : String) (code : Nat) : Response :=
  { w with status := some code, body := w.body ++ [msg] }

/-- From src/handler.go: NotFound replies to the request with an HTTP 404 not
found error and returns a nil error value. -/
def NotFound (w : Response) : Response × Option String :=
  (httpError w "404 page not found" 404, none)

/-- From src/handler.go: NotFoundHandler returns a simple request handler that
replies to each request with a 404 page not found reply. -/
def NotFoundHandler : Response → Response × Option String := NotFound

/-- The kinds an interface value inspected through reflection can have.  The
kinds named by the switch in isNil are listed explicitly; every remaining kind
(struct, int, string, bool, ...) is collapsed into otherKind, since isNil
treats them uniformly. -/
inductive GoKind where
  | ptrKind : GoKind
  | mapKind : GoKind
  | arrayKind : GoKind
  | chanKind : GoKind
  | sliceKind : GoKind
  | funcKind : GoKind
  | otherKind : GoKind
deriving Repr, DecidableEq

/-- A dynamic value stored in a non-nil Go interface: its reflected kind and,
for the kinds that admit a nil value, whether the stored value is nil.  For
kinds that can never be nil (such as arrays) the flag is meaningless. -/
structure GoValue where
  kind : GoKind
  isNilValue : Bool
deriving Repr, DecidableEq

/-- A Go interface value: either the nil interface or a boxed dynamic value. -/
inductive GoInterface where
  | nilInterface : GoInterface
  | of (v : GoValue) : GoInterface
deriving Repr, DecidableEq

/-- Models reflect.Value.IsNil: it reports whether the value is nil for the
chan, func, interface, map, pointer and slice kinds, and panics (modelled as an
error result) for every other kind, including arrays. -/
def reflectValueIsNil (v : GoValue) : Except String Bool :=
  match v.kind with
  | GoKind.ptrKind => Except.ok v.isNilValue
  | GoKind.mapKind => Except.ok v.isNilValue
  | GoKind.chanKind => Except.ok v.isNilValue
  | GoKind.sliceKind => Except.ok v.isNilValue
  | GoKind.funcKind => Except.ok v.isNilValue
  | _ => Except.error "reflect: call of reflect.Value.IsNil on invalid kind"

/-- From src/handler.go: isNil returns true for a nil interface; otherwise it
switches on the reflected kind and for Ptr, Map, Array, Chan, Slice and Func it
calls reflect.Value.IsNil on the value, returning false for all remaining
kinds.  A panic raised by reflection is modelled as an error result. -/
def isNil (i : GoInterface) : Except String Bool :=
  match i with
  | GoInterface.nilInterface => Except.ok true
  | GoInterface.of v =>
    match v.kind with
    | GoKind.ptrKind => reflectValueIsNil v
    | GoKind.mapKind => reflectValueIsNil v
    | GoKind.arrayKind => reflectValueIsNil v
    | GoKind.chanKind => reflectValueIsNil v
    | GoKind.sliceKind => reflectValueIsNil v
    | GoKind.funcKind => reflectValueIsNil v
    | _ => Except.ok false

/-- Modelled from the spec: a middleware is a decorator over handlers.  The
test suite observes middleware execution through the write it performs before
delegating, so a middleware is modelled by the label it writes; a middleware
may instead short-circuit with its own failure value (fail field), which the
dispatch core must propagate unchanged. -/
structure Mw where
  label : String
  fail : Option String := none
deriving Repr, DecidableEq

/-- Modelled from the spec: a terminal handler, described by the status it
sets, the body writes it performs, and the failure value it returns. -/
structure RHandler where
  setStatus : Option Nat := none
  out : List String := []
  err : Option String := none
deriving Repr, DecidableEq

/-- Run a terminal handler against the response sink. -/
def RHandler.run (h : RHandler) (w : Response) : Response × Option String :=
  ({ w with
      status := match h.setStatus with | some s => some s | none => w.status,
      body := w.body ++ h.out },
   h.err)

/-- The RHandler form of the NotFound fallback from src/handler.go: reply 404
page not found with status 404 and return no error. -/
def notFoundRH : RHandler :=
  { setStatus := some 404, out := ["404 page not found"], err := none }

/-- Modelled from the spec: the default method-not-allowed fallback is a
405-equivalent generic reply returning no error. -/
def defaultMethodNotAllowed : RHandler :=
  { setStatus := some 405, out := [], err := none }

/-- Run a middleware chain from outermost to innermost and finally the
terminal handler: each middleware writes its label, then either fails with its
own error (short-circuiting) or delegates inward; the result of the innermost
component is returned unchanged. -/
def runChain : List Mw → RHandler → Response → Response × Option String
  | [], h, w => h.run w
  | m :: ms, h, w =>
    let w1 : Response := { w with body := w.body ++ [m.label] }
    match m.fail with
    | some e => (w1, some e)
    | none => runChain ms h w1

/-- The first failure value produced by a middleware of the chain, if any. -/
def firstFail : List Mw → Option String
  | [] => none
  | m :: ms =>
    match m.fail with
    | some e => some e
    | none => firstFail ms

/-- Modelled from the spec: a path-family matcher is either an exact compiled
path template or a path prefix (used for subrouters). -/
inductive PathM where
  | exact (tpl : String) : PathM
  | pfx (p : String) : PathM
deriving Repr, DecidableEq

/-- String prefix test (models strings.HasPrefix as used for path-prefix
matchers). -/
def strHasPfx (p s : String) : Bool := p.data.isPrefixOf s.data

/-- Evaluate a path-family matcher against a request path. -/
def pathMatches (pm : PathM) (p : String) : Bool :=
  match pm with
  | PathM.exact t => if p = t then true else false
  | PathM.pfx t => strHasPfx t p

/-- Modelled from the spec: the routing outcomes that are not a full match,
mirroring ErrMethodMismatch and ErrNotFound of the dispatcher. -/
inductive MErr where
  | methodMismatch : MErr
  | notFound : MErr
deriving Repr, DecidableEq

/-- Modelled from the spec: the mutable RouteMatch record threaded through a
scan: the resolved handler chain (middleware list plus terminal handler), the
recorded routing error, and the metadata of the winning route (the
matched-route context read by CurrentRoute). -/
structure MState where
  handler : Option (List Mw × RHandler) := none
  matchErr : Option MErr := none
  meta : Option (List (String × String)) := none
deriving Repr, DecidableEq

/-- Modelled from the spec: one registered entry of a router, in registration
order.  A route carries its path-family matcher, its optional accepted method
set, its route-local middleware, its handler and its metadata store.  A sub
entry is a subrouter registered under a path prefix, carrying the subrouter
middleware, its own entries and its optional fallback handlers. -/
inductive Entry where
  | route (pm : PathM) (methods : Option (List String)) (mws : List Mw)
      (h : RHandler) (md : List (String × String)) : Entry
  | sub (p : String) (mws : List Mw) (entries : List Entry)
      (nf : Option RHandler) (mna : Option RHandler) : Entry

/-- Modelled from the spec: a router is an ordered sequence of entries plus
router-level middleware and the two replaceable fallback handlers. -/
structure Router where
  middlewares : List Mw
  entries : List Entry
  notFoundH : Option RHandler
  methodNotAllowedH : Option RHandler

/-- Wrap an already resolved chain in an additional level of middleware; the
middleware of the outer level is prepended, so the first registered middleware
at a level is outermost. -/
def wrapMws (mws : List Mw) (c : Option (List Mw × RHandler)) :
    Option (List Mw × RHandler) :=
  match c with
  | some lh => some (mws ++ lh.1, lh.2)
  | none => none

/-- Modelled from the spec: the tail of Router.Match after its route scan.  On
a successful scan the router wraps the resolved chain in its own middleware
only when no routing error is recorded (fallback resolutions bypass
middleware).  On a failed scan a recorded method mismatch is captured by a
configured method-not-allowed handler, and otherwise a configured not-found
handler captures the request; without the respective handler the failure is
reported to the caller, recording not-found when no mismatch was seen. -/
def routerFinish (mws : List Mw) (nf mna : Option RHandler) :
    Bool × MState → Bool × MState
  | (true, st) =>
    if st.matchErr = none then (true, { st with handler := wrapMws mws st.handler })
    else (true, st)
  | (false, st) =>
    match st.matchErr with
    | some MErr.methodMismatch =>
      (match mna with
       | some h => (true, { st with handler := some ([], h) })
       | none => (false, st))
    | _ =>
      (match nf with
       | some h =>
         (true, { st with handler := some ([], h), matchErr := some MErr.notFound })
       | none => (false, { st with matchErr := some MErr.notFound }))

/-- Modelled from the spec: a failing non-method matcher clears a recorded
not-found error (which only arises from a subrouter scan), so that a subrouter
not-found never leaks into the surrounding scan; a recorded method mismatch is
deliberately kept. -/
def clearNotFound (st : MState) : MState :=
  if st.matchErr = some MErr.notFound then { st with matchErr := none } else st

mutual

/-- Modelled from the spec: the route scan of Router.Match.  Entries are
consulted strictly in registration order; the first entry reporting a match
stops the scan, while mismatch information is threaded onward through the
match state. -/
def scanEntries : List Entry → Request → MState → Bool × MState
  | [], _, st => (false, st)
  | e :: es, req, st =>
    match entryMatch e req st with
    | (true, st1) => (true, st1)
    | (false, st1) => scanEntries es req st1

/-- Modelled from the spec: Route.Match for a single entry.  A plain route
matches when its path matcher accepts the path and the method is accepted (an
absent method set accepts every method); a path match with a rejected method
records a method mismatch and fails.  On success the route resolves to its own
middleware and handler, clears a recorded mismatch, and installs its metadata
as the matched-route context unless an inner route already did.  A subrouter
entry delegates to its own scan when the prefix matches; its captured results
propagate unchanged, and its not-found failures are cleared so the parent scan
continues with sibling entries. -/
def entryMatch : Entry → Request → MState → Bool × MState
  | Entry.route pm ms mws h md, req, st =>
    if pathMatches pm req.path then
      match ms with
      | some l =>
        if req.method ∈ l then
          (true, { handler := some (mws, h),
                   matchErr := if st.matchErr = some MErr.methodMismatch then none
                               else st.matchErr,
                   meta := if st.meta = none then some md else st.meta })
        else (false, { st with matchErr := some MErr.methodMismatch })
      | none =>
        (true, { handler := some (mws, h),
                 matchErr := if st.matchErr = some MErr.methodMismatch then none
                             else st.matchErr,
                 meta := if st.meta = none then some md else st.meta })
    else (false, clearNotFound st)
  | Entry.sub p mws entries nf mna, req, st =>
    if strHasPfx p req.path then
      match routerFinish mws nf mna (scanEntries entries req st) with
      | (true, st1) => (true, st1)
      | (false, st1) => (false, clearNotFound st1)
    else (false, clearNotFound st)

end

/-- The initial, empty match state of a dispatch. -/
def initState : MState := {}

/-- Modelled from the spec: Router.Match of the top-level router. -/
def matchRouter (r : Router) (req : Request) : Bool × MState :=
  routerFinish r.middlewares r.notFoundH r.methodNotAllowedH
    (scanEntries r.entries req initState)

/-- Modelled from the spec: the handler resolution of ServeHTTP.  A successful
match supplies the resolved chain; otherwise a recorded method mismatch falls
back to the default 405 reply and anything else falls back to the default 404
reply (the NotFound handler of src/handler.go).  Fallback chains carry no
middleware. -/
def resolve (r : Router) (req : Request) : List Mw × RHandler :=
  let res := matchRouter r req
  match (if res.1 then res.2.handler else none) with
  | some c => c
  | none =>
    if res.2.matchErr = some MErr.methodMismatch then ([], defaultMethodNotAllowed)
    else ([], notFoundRH)

/-- Modelled from the spec: ServeHTTP dispatches the request by resolving the
effective chain and invoking it exactly once against the response sink,
returning its failure value to the caller unchanged. -/
def serve (r : Router) (req : Request) (w : Response) : Response × Option String :=
  runChain (resolve r req).1 (resolve r req).2 w

/-- The matched-route context: the metadata of the route the dispatch resolved
to, as CurrentRoute exposes it to the running handler. -/
def currentRouteMeta (r : Router) (req : Request) : Option (List (String × String)) :=
  (matchRouter r req).2.meta

/-- Modelled from the spec: GetMethods of a route reports its registered
method set and fails for a route without a method matcher (including a
subrouter entry, which never carries one). -/
def entryMethods : Entry → Option (List String)
  | Entry.route _ ms _ _ _ => ms
  | Entry.sub _ _ _ _ _ => none

/-- Modelled from the spec: the aggregation behind CORSMethodMiddleware.  Each
entry of the wrapped router is matched against the request with a fresh match
state; an entry that matches, or whose failure recorded a method mismatch,
contributes its method set in registration order, and contributes an
aggregation error when it has no method set. -/
def getAllMethodsForRoute : List Entry → Request → Except Unit (List String)
  | [], _ => Except.ok []
  | e :: es, req =>
    let res := entryMatch e req initState
    if res.1 || (res.2.matchErr = some MErr.methodMismatch) then
      match entryMethods e with
      | some ms => (getAllMethodsForRoute es req).map (fun rest => ms ++ rest)
      | none => Except.error ()
    else getAllMethodsForRoute es req

/-- Modelled from the spec: the header value CORSMethodMiddleware would set:
the comma-joined aggregated method list, provided the aggregation succeeded
and OPTIONS is among the methods; otherwise no header is set. -/
def corsHeaderValue (entries : List Entry) (req : Request) : Option String :=
  match getAllMethodsForRoute entries req with
  | Except.ok ms => if "OPTIONS" ∈ ms then some (String.intercalate "," ms) else none
  | Except.error _ => none

/-- Modelled from the spec: dispatch through a router wrapped by
CORSMethodMiddleware of that same router.  Being an ordinary router-level
middleware, the aggregator only runs when dispatch reaches a full match (a
fallback resolution bypasses all middleware); when it runs it sets the
Access-Control-Allow-Methods header if the aggregation produced an
OPTIONS-containing method list, and always lets the downstream chain proceed
normally. -/
def corsServe (r : Router) (req : Request) (w : Response) : Response × Option String :=
  let res := matchRouter r req
  let w1 :=
    if res.1 && (res.2.matchErr = none) then
      match corsHeaderValue r.entries req with
      | some v => w.setHeader "Access-Control-Allow-Methods" v
      | none => w
    else w
  serve r req w1

/-- Modelled from the spec: the distinguishable metadata lookup failure
ErrMetadataKeyNotFound. -/
inductive MetadataError where
  | keyNotFound : MetadataError
deriving Repr, DecidableEq

/-- The metadata key not found error value, under its source name. -/
def ErrMetadataKeyNotFound : MetadataError := MetadataError.keyNotFound

/-- Modelled from the spec: the builder-style Metadata call on a route: insert
the pair, overwriting the value of an existing key in place. -/
def metadataSet (m : List (String × String)) (k v : String) :
    List (String × String) :=
  if m.any (fun q => q.1 = k) then m.map (fun q => if q.1 = k then (k, v) else q)
  else m ++ [(k, v)]

/-- Modelled from the spec: GetMetadataValue retrieves a single metadata value
by key, failing with ErrMetadataKeyNotFound when the key is absent. -/
def GetMetadataValue (m : List (String × String)) (k : String) :
    Except MetadataError String :=
  match m.find? (fun q => q.1 = k) with
  | some q => Except.ok q.2
  | none => Except.error ErrMetadataKeyNotFound

/-- Modelled from the spec: GetMetadataValueOr retrieves a metadata value by
key, substituting the caller-supplied fallback value when the key is
absent. -/
def GetMetadataValueOr (m : List (String × String)) (k fb : String) : String :=
  match m.find? (fun q => q.1 = k) with
  | some q => q.2
  | none => fb

/-- Whether an entry is a plain route (not a subrouter). -/
def Entry.isPlain : Entry → Bool
  | Entry.route _ _ _ _ _ => true
  | Entry.sub _ _ _ _ _ => false

/-- Whether the full matcher set of a plain route is satisfied by the request:
the path matcher accepts the path and the method set (when present) accepts
the method.  Subrouter entries are not plain routes and report false. -/
def Entry.fullMatch (e : Entry) (req : Request) : Bool :=
  match e with
  | Entry.route pm ms _ _ _ =>
    pathMatches pm req.path &&
      (match ms with
       | some l => decide (req.method ∈ l)
       | none => true)
  | Entry.sub _ _ _ _ _ => false

/-- The route-local middleware of an entry. -/
def Entry.mws : Entry → List Mw
  | Entry.route _ _ mws _ _ => mws
  | Entry.sub _ mws _ _ _ => mws

/-- The terminal handler of a plain route (a subrouter entry has none and
reports the trivial handler). -/
def Entry.handler : Entry → RHandler
  | Entry.route _ _ _ h _ => h
  | Entry.sub _ _ _ _ _ => {}

/-- The metadata store of a plain route. -/
def Entry.md : Entry → List (String × String)
  | Entry.route _ _ _ _ md => md
  | Entry.sub _ _ _ _ _ => []

/-- The request handler used by the CORS tests for path /foo registered with
methods GET, PUT and PATCH: it writes the body a. -/
def handlerA : RHandler := { out := ["a"] }

/-- The request handler used by the CORS tests for path /foo registered with
method OPTIONS: it writes the body b. -/
def handlerB : RHandler := { out := ["b"] }

/-- A handler that writes nothing and returns no error (dummyHandler of the
test suite). -/
def handlerNil : RHandler := {}

/-- The router of the CORS tests: two routes registered for /foo, the first
accepting GET, PUT and PATCH and the second accepting OPTIONS. -/
def fooRouter : Router :=
  { middlewares := [],
    entries :=
      [Entry.route (PathM.exact "/foo") (some ["GET", "PUT", "PATCH"]) [] handlerA [],
       Entry.route (PathM.exact "/foo") (some ["OPTIONS"]) [] handlerB []],
    notFoundH := none,
    methodNotAllowedH := none }

/-- The router of the CORS error test: a single route for /foo registered
without a method matcher. -/
def fooNoMethodsRouter : Router :=
  { middlewares := [],
    entries := [Entry.route (PathM.exact "/foo") none [] handlerA []],
    notFoundH := none,
    methodNotAllowedH := none }

/-- The router of the method-mismatch middleware test: a router-level
middleware writing Middleware, and one route for the root path accepting only
GET whose handler writes Logic. -/
def mismatchRouter : Router :=
  { middlewares := [{ label := "Middleware" }],
    entries :=
      [Entry.route (PathM.exact "/") (some ["GET"]) []
        { out := ["Logic"] } []],
    notFoundH := none,
    methodNotAllowedH := none }

/-- The router of the not-found middleware test: a router-level middleware
writing Middleware, and one route for the root path (any method) whose handler
writes Logic. -/
def notFoundTestRouter : Router :=
  { middlewares := [{ label := "Middleware" }],
    entries :=
      [Entry.route (PathM.exact "/") none [] { out := ["Logic"] } []],
    notFoundH := none,
    methodNotAllowedH := none }

/-- The router of the subrouter middleware test: a root route for / accepting
GET, and a subrouter under the prefix /sub carrying a middleware labelled
mwSub and one route for /sub/x accepting GET. -/
def subTestRouter : Router :=
  { middlewares := [],
    entries :=
      [Entry.route (PathM.exact "/") (some ["GET"]) [] handlerNil [],
       Entry.sub "/sub" [{ label := "mwSub" }]
         [Entry.route (PathM.exact "/sub/x") (some ["GET"]) [] handlerNil []]
         none none],
    notFoundH := none,
    methodNotAllowedH := none }

/-- The router of the multi-subrouter middleware test: two subrouters under
the prefix /, the first carrying a middleware labelled first and a route for
/first, the second carrying a middleware labelled second and a route for
/second, plus a custom not-found handler on the root router. -/
def multiSubRouter : Router :=
  { middlewares := [],
    entries :=
      [Entry.sub "/" [{ label := "first" }]
         [Entry.route (PathM.exact "/first") none [] handlerNil []] none none,
       Entry.sub "/" [{ label := "second" }]
         [Entry.route (PathM.exact "/second") none [] handlerNil []] none none],
    notFoundH := some { out := ["404 not found"] },
    methodNotAllowedH := none }

/-- The router of the metadata test: a route for the root path carrying the
metadata binding of key to value. -/
def metaRouter : Router :=
  { middlewares := [],
    entries :=
      [Entry.route (PathM.exact "/") none [] handlerNil
        (metadataSet [] "key" "value")],
    notFoundH := none,
    methodNotAllowedH := none }

/-- The router of the first CORS test case: a single route for /foo accepting
GET, PUT and PATCH, with no OPTIONS route registered. -/
def fooNoOptionsRouter : Router :=
  { middlewares := [],
    entries :=
      [Entry.route (PathM.exact "/foo") (some ["GET", "PUT", "PATCH"]) [] handlerA []],
    notFoundH := none,
    methodNotAllowedH := none }

/-- Claim C9: the default not-found fallback handler writes a generic 404
reply (status 404 with body 404 page not found) for every request it receives
and returns a nil failure indicator; NotFoundHandler always returns this same
handler function, and the not-found fallback the dispatcher installs runs
exactly this handler. -/
theorem C9_default_not_found (w : Response) :
    NotFound w = ({ w with status := some 404, body := w.body ++ ["404 page not found"] }, none)
    ∧ (NotFound w).2 = none
    ∧ NotFoundHandler = NotFound
    ∧ notFoundRH.run w = NotFound w :=
  ⟨rfl, rfl, rfl, rfl⟩

/-- Claim C9 witness: the general statement evaluated at the empty response
sink. -/
theorem C9_default_not_found_witness :
    NotFound {} = ({ status := some 404, body := ["404 page not found"] }, none)
    ∧ (NotFound {}).2 = none
    ∧ NotFoundHandler = NotFound
    ∧ notFoundRH.run {} = NotFound {} :=
  C9_default_not_found {}

/-- Claim C10: the claim states that isNil is total and returns false for
array values; the code instead reaches reflect.Value.IsNil for the Array kind,
and reflect.Value.IsNil panics for arrays (arrays can never be nil and IsNil
is only valid for chan, func, interface, map, pointer and slice kinds), so a
non-nil interface holding an array value makes isNil panic.  This theorem
evaluates the embedded code at the failing input and at the inputs the claim
describes correctly. -/
theorem C10_isNil_array_panics :
    isNil (GoInterface.of { kind := GoKind.arrayKind, isNilValue := false })
      = Except.error "reflect: call of reflect.Value.IsNil on invalid kind"
    ∧ isNil GoInterface.nilInterface = Except.ok true
    ∧ isNil (GoInterface.of { kind := GoKind.ptrKind, isNilValue := true }) = Except.ok true
    ∧ isNil (GoInterface.of { kind := GoKind.sliceKind, isNilValue := true }) = Except.ok true
    ∧ isNil (GoInterface.of { kind := GoKind.ptrKind, isNilValue := false }) = Except.ok false
    ∧ isNil (GoInterface.of { kind := GoKind.otherKind, isNilValue := false }) = Except.ok false := by
  decide

/-- Claim C7: binding key to value on a route and reading it back through the
matched-route context inside that route yields value; reading an unset key
through the single-value accessor fails with ErrMetadataKeyNotFound; reading
an unset key through the fallback accessor returns the supplied fallback. -/
theorem C7_metadata_roundtrip :
    currentRouteMeta metaRouter { method := "GET", path := "/" }
      = some (metadataSet [] "key" "value")
    ∧ GetMetadataValue (metadataSet [] "key" "value") "key" = Except.ok "value"
    ∧ GetMetadataValue (metadataSet [] "key" "value") "key2"
      = Except.error ErrMetadataKeyNotFound
    ∧ GetMetadataValueOr (metadataSet [] "key" "value") "key" "value-fallback" = "value"
    ∧ GetMetadataValueOr (metadataSet [] "key" "value") "key2" "value2" = "value2" := by
  decide

/-- Claim C6: when the CORS method aggregation errors (the matching /foo route
has no method set), the Access-Control-Allow-Methods header is not set and the
request still reaches the matched handler unchanged; a path with no
OPTIONS-registered route aggregates the methods of matching routes but sets no
header; and a request matching no route at all gets no header. -/
theorem C6_cors_error_no_header :
    getAllMethodsForRoute fooNoMethodsRouter.entries { method := "OPTIONS", path := "/foo" }
      = Except.error ()
    ∧ (corsServe fooNoMethodsRouter { method := "OPTIONS", path := "/foo" } {}).1.getHeader
        "Access-Control-Allow-Methods" = none
    ∧ (corsServe fooNoMethodsRouter { method := "OPTIONS", path := "/foo" } {}).1.body = ["a"]
    ∧ (corsServe fooNoMethodsRouter { method := "OPTIONS", path := "/foo" } {}).2 = none
    ∧ getAllMethodsForRoute fooNoOptionsRouter.entries { method := "GET", path := "/foo" }
      = Except.ok ["GET", "PUT", "PATCH"]
    ∧ (corsServe fooNoOptionsRouter { method := "GET", path := "/foo" } {}).1.getHeader
        "Access-Control-Allow-Methods" = none
    ∧ (corsServe fooNoOptionsRouter { method := "GET", path := "/foo" } {}).1.body = ["a"]
    ∧ (corsServe fooRouter { method := "GET", path := "/bar" } {}).1.getHeader
        "Access-Control-Allow-Methods" = none := by
  decide

/-- Claim C5 counterexample: the claim promises the aggregated header for any
request to /foo regardless of its method, but a DELETE request to /foo is
accepted by no route, so dispatch falls back to the 405 reply without running
any middleware: the CORS aggregator never executes, the header stays unset and
no matched handler runs. -/
theorem C5_counterexample :
    ¬ ((corsServe fooRouter { method := "DELETE", path := "/foo" } {}).1.getHeader
         "Access-Control-Allow-Methods" = some "GET,PUT,PATCH,OPTIONS")
    ∧ (corsServe fooRouter { method := "DELETE", path := "/foo" } {}).1.getHeader
        "Access-Control-Allow-Methods" = none
    ∧ (corsServe fooRouter { method := "DELETE", path := "/foo" } {}).1.status = some 405
    ∧ (corsServe fooRouter { method := "DELETE", path := "/foo" } {}).1.body = [] := by
  decide

/-- Claim C5 (amended): with routes for /foo accepting GET, PUT and PATCH and
for /foo accepting OPTIONS, registered on a router wrapped by the CORS method
middleware, any request to /foo whose method is accepted by one of the two
routes gets the Access-Control-Allow-Methods response header set to the
comma-joined, insertion-ordered list GET,PUT,PATCH,OPTIONS, the downstream
matched handler still runs normally, and no error is reported. -/
theorem C5_cors_aggregation (m : String)
    (hm : m ∈ ["GET", "PUT", "PATCH", "OPTIONS"]) :
    (corsServe fooRouter { method := m, path := "/foo" } {}).1.getHeader
      "Access-Control-Allow-Methods" = some "GET,PUT,PATCH,OPTIONS"
    ∧ (corsServe fooRouter { method := m, path := "/foo" } {}).1.body
      = [if m = "OPTIONS" then "b" else "a"]
    ∧ (corsServe fooRouter { method := m, path := "/foo" } {}).2 = none := by
  fin_cases hm <;> decide

/-- Claim C5 witness: the amended statement evaluated at a GET request. -/
theorem C5_cors_aggregation_witness :
    ("GET" ∈ ["GET", "PUT", "PATCH", "OPTIONS"])
    ∧ ((corsServe fooRouter { method := "GET", path := "/foo" } {}).1.getHeader
         "Access-Control-Allow-Methods" = some "GET,PUT,PATCH,OPTIONS"
       ∧ (corsServe fooRouter { method := "GET", path := "/foo" } {}).1.body
         = [if "GET" = "OPTIONS" then "b" else "a"]
       ∧ (corsServe fooRouter { method := "GET", path := "/foo" } {}).2 = none) :=
  ⟨by decide, C5_cors_aggregation "GET" (by decide)⟩

/-- Claim C2 counterexample: the claim asserts that middleware above the scope
of the router whose method-not-allowed handler fires still runs.  In the
method-mismatch middleware test router (router-level middleware labelled
Middleware, one route for / accepting only GET), a POST request to / reaches
the default 405 fallback, yet the response body is empty: the router-level
middleware never executed, since an executed middleware always writes its
label. -/
theorem C2_counterexample :
    (serve mismatchRouter { method := "POST", path := "/" } {}).1.status = some 405
    ∧ ¬ ("Middleware" ∈ (serve mismatchRouter { method := "POST", path := "/" } {}).1.body)
    ∧ (serve mismatchRouter { method := "POST", path := "/" } {}).1.body = [] := by
  decide

/-- Claim C2 (amended): for every request whose scan of the routes records a
method mismatch and finds no full match, the router invokes the
method-not-allowed handler (the configured one, or the default 405 reply), and
no middleware runs at all for that request: neither router-level middleware
above the scope of the mismatching route nor middleware inside the unmatched
route, since the dispatched response is exactly the fallback handler applied
to the untouched response sink. -/
theorem C2_method_mismatch_fallback (r : Router) (req : Request) (w : Response)
    (st : MState)
    (hscan : scanEntries r.entries req initState = (false, st))
    (hmm : st.matchErr = some MErr.methodMismatch) :
    serve r req w = (r.methodNotAllowedH.getD defaultMethodNotAllowed).run w := by
  unfold serve resolve matchRouter
  rw [hscan]
  cases hmna : r.methodNotAllowedH <;>
    simp [routerFinish, hmm, hmna, runChain]

/-- Claim C2 witness: the amended statement evaluated on the method-mismatch
test router at a POST request to the root path. -/
theorem C2_method_mismatch_fallback_witness :
    (scanEntries mismatchRouter.entries { method := "POST", path := "/" } initState
       = (false, { matchErr := some MErr.methodMismatch })
     ∧ ({ matchErr := some MErr.methodMismatch } : MState).matchErr
       = some MErr.methodMismatch)
    ∧ serve mismatchRouter { method := "POST", path := "/" } {}
      = (mismatchRouter.methodNotAllowedH.getD defaultMethodNotAllowed).run {} :=
  ⟨⟨by decide, by decide⟩,
   C2_method_mismatch_fallback mismatchRouter { method := "POST", path := "/" } {}
     { matchErr := some MErr.methodMismatch } (by decide) (by decide)⟩

/-- Claim C3: for every request whose scan of the routes ends with no match
and no recorded method mismatch (a NOT_FOUND outcome), the not-found handler
(the configured one, or the default 404 reply from handler.go) runs, and the
fallback invocation bypasses middleware entirely: the dispatched response is
exactly the fallback handler applied to the untouched response sink, so no
middleware registered on the router, on a subrouter, or on any route executed
for the request. -/
theorem C3_not_found_fallback (r : Router) (req : Request) (w : Response)
    (st : MState)
    (hscan : scanEntries r.entries req initState = (false, st))
    (hnm : st.matchErr ≠ some MErr.methodMismatch) :
    serve r req w = (r.notFoundH.getD notFoundRH).run w := by
  unfold serve resolve matchRouter
  rw [hscan]
  rcases hme : st.matchErr with _ | me
  · cases hnf : r.notFoundH <;> simp [routerFinish, hme, hnf, runChain]
  · cases me
    · exact absurd hme hnm
    · cases hnf : r.notFoundH <;> simp [routerFinish, hme, hnf, runChain]

/-- Claim C3 witness: the statement evaluated on the not-found middleware test
router at a GET request to an unregistered path. -/
theorem C3_not_found_fallback_witness :
    (scanEntries notFoundTestRouter.entries { method := "GET", path := "/notfound" } initState
       = (false, {})
     ∧ ({} : MState).matchErr ≠ some MErr.methodMismatch)
    ∧ serve notFoundTestRouter { method := "GET", path := "/notfound" } {}
      = (notFoundTestRouter.notFoundH.getD notFoundRH).run {} :=
  ⟨⟨by decide, by decide⟩,
   C3_not_found_fallback notFoundTestRouter { method := "GET", path := "/notfound" } {}
     {} (by decide) (by decide)⟩

/-- Claim C8: the dispatch core returns exactly the failure value of the
innermost failing component of the invoked chain: running a chain yields the
first failing middleware error if any middleware fails, and the terminal
handler error otherwise, and the failure value returned by serve is exactly
that of the chain it resolved, never logged away, retried or replaced. -/
theorem C8_error_propagation :
    (∀ (mws : List Mw) (h : RHandler) (w : Response),
       (runChain mws h w).2
         = (match firstFail mws with | some e => some e | none => h.err))
    ∧ ∀ (r : Router) (req : Request) (w : Response),
       (serve r req w).2
         = (match firstFail (resolve r req).1 with
            | some e => some e
            | none => ((resolve r req).2).err) := by
  have key : ∀ (mws : List Mw) (h : RHandler) (w : Response),
      (runChain mws h w).2
        = (match firstFail mws with | some e => some e | none => h.err) := by
    intro mws h w
    induction mws generalizing w with
    | nil => simp [runChain, firstFail, RHandler.run]
    | cons m ms ih =>
      cases hf : m.fail <;> simp [runChain, firstFail, hf, ih]
  exact ⟨key, fun r req w => key (resolve r req).1 (resolve r req).2 w⟩

/-- A plain route whose full matcher set is not satisfied fails without
touching the resolved handler or the matched-route context; the recorded
routing error stays in the none-or-mismatch range. -/
lemma entryMatch_plain_nomatch (e : Entry) (req : Request) (st : MState)
    (hp : e.isPlain = true) (hnm : e.fullMatch req = false)
    (hinv : st.matchErr = none ∨ st.matchErr = some MErr.methodMismatch) :
    ∃ me, entryMatch e req st
        = (false, { handler := st.handler, matchErr := me, meta := st.meta })
      ∧ (me = none ∨ me = some MErr.methodMismatch) := by
  cases e with
  | sub p mws entries nf mna => simp [Entry.isPlain] at hp
  | route pm ms mws h md =>
    by_cases hpath : pathMatches pm req.path
    · cases ms with
      | none => simp [Entry.fullMatch, hpath] at hnm
      | some l =>
        have hmem : ¬ req.method ∈ l := by
          simpa [Entry.fullMatch, hpath] using hnm
        exact ⟨some MErr.methodMismatch, by simp [entryMatch, hpath, hmem], Or.inr rfl⟩
    · refine ⟨st.matchErr, ?_, hinv⟩
      have hclear : clearNotFound st = st := by
        rcases hinv with h1 | h1 <;> simp [clearNotFound, h1]
      simp [entryMatch, hpath, hclear]

/-- A plain route whose full matcher set is satisfied resolves to its own
middleware and handler, clears the recorded mismatch, and installs its
metadata as the matched-route context. -/
lemma entryMatch_plain_match (e : Entry) (req : Request) (st : MState)
    (hp : e.isPlain = true) (hm : e.fullMatch req = true)
    (hinv : st.matchErr = none ∨ st.matchErr = some MErr.methodMismatch)
    (hmeta : st.meta = none) :
    entryMatch e req st
      = (true, { handler := some (e.mws, e.handler), matchErr := none,
                 meta := some e.md }) := by
  cases e with
  | sub p mws entries nf mna => simp [Entry.isPlain] at hp
  | route pm ms mws h md =>
    have herr : (if st.matchErr = some MErr.methodMismatch then none else st.matchErr)
        = (none : Option MErr) := by
      rcases hinv with h1 | h1 <;> simp [h1]
    cases ms with
    | none =>
      have hpath : pathMatches pm req.path = true := by
        simpa [Entry.fullMatch] using hm
      simp [entryMatch, hpath, hmeta, herr, Entry.mws, Entry.handler, Entry.md]
    | some l =>
      have hm2 : pathMatches pm req.path = true ∧ req.method ∈ l := by
        simpa [Entry.fullMatch] using hm
      simp [entryMatch, hm2.1, hm2.2, hmeta, herr, Entry.mws, Entry.handler, Entry.md]

/-- The scan of a list of plain routes resolves to the first route whose full
matcher set is satisfied: the scan succeeds with that route as the winner, a
clean routing error, and that route installed as the matched-route context. -/
lemma scanEntries_first_match (entries : List Entry) (req : Request) :
    ∀ (st : MState) (i : Nat) (hi : i < entries.length),
      (∀ e ∈ entries, e.isPlain = true) →
      st.meta = none →
      (st.matchErr = none ∨ st.matchErr = some MErr.methodMismatch) →
      (entries[i]).fullMatch req = true →
      (∀ j (hj : j < entries.length), j < i → (entries[j]).fullMatch req = false) →
      scanEntries entries req st
        = (true, { handler := some ((entries[i]).mws, (entries[i]).handler),
                   matchErr := none, meta := some ((entries[i]).md) }) := by
  induction entries with
  | nil =>
    intro st i hi _ _ _ _ _
    exact absurd hi (by simp)
  | cons e es ih =>
    intro st i hi hplain hmeta hinv hmatch hfirst
    cases i with
    | zero =>
      have he := entryMatch_plain_match e req st (hplain e (by simp))
        (by simpa using hmatch) hinv hmeta
      simp [scanEntries, he]
    | succ n =>
      have hnm : e.fullMatch req = false := by
        simpa using hfirst 0 (by simp) (Nat.succ_pos n)
      obtain ⟨me, hstep, hme⟩ :=
        entryMatch_plain_nomatch e req st (hplain e (by simp)) hnm hinv
      have hshift : ∀ j (hj : j < es.length), j < n →
          (es[j]).fullMatch req = false := by
        intro j hj hji
        simpa using hfirst (j + 1) (by simpa using Nat.succ_lt_succ hj)
          (Nat.succ_lt_succ hji)
      have hrec := ih { handler := st.handler, matchErr := me, meta := st.meta } n
        (by simpa using hi)
        (fun x hx => hplain x (by simp [hx]))
        (by simpa using hmeta)
        hme
        (by simpa using hmatch)
        hshift
      simp [scanEntries, hstep, hrec]

/-- A scan that succeeds with a clean routing error resolves the dispatched
response to the winning chain wrapped in the router-level middleware. -/
lemma serve_of_scan_match (r : Router) (req : Request) (w : Response)
    (c : List Mw × RHandler) (md : List (String × String))
    (hscan : scanEntries r.entries req initState
      = (true, { handler := some c, matchErr := none, meta := some md })) :
    serve r req w = runChain (r.middlewares ++ c.1) c.2 w := by
  unfold serve resolve matchRouter
  rw [hscan]
  simp [routerFinish, wrapMws]

/-- Claim C1: routes are scanned in registration order and the first route
whose full matcher set is satisfied wins: for a router of plain routes, if the
route at index i fully matches and no earlier-registered route does, dispatch
invokes exactly that route handler wrapped in the router middleware followed
by that route middleware, and no later-registered route is consulted (cutting
the registration list right after the winner leaves the dispatched response
unchanged). -/
theorem C1_first_match_wins (r : Router) (req : Request) (w : Response) (i : Nat)
    (hi : i < r.entries.length)
    (hplain : ∀ e ∈ r.entries, e.isPlain = true)
    (hmatch : (r.entries[i]).fullMatch req = true)
    (hfirst : ∀ j (hj : j < r.entries.length), j < i →
      (r.entries[j]).fullMatch req = false) :
    serve r req w
      = runChain (r.middlewares ++ (r.entries[i]).mws) ((r.entries[i]).handler) w
    ∧ serve r req w
      = serve { middlewares := r.middlewares, entries := r.entries.take (i + 1),
                notFoundH := r.notFoundH, methodNotAllowedH := r.methodNotAllowedH }
          req w := by
  have hscan := scanEntries_first_match r.entries req initState i hi hplain rfl
    (Or.inl rfl) hmatch hfirst
  have hmain : serve r req w
      = runChain (r.middlewares ++ (r.entries[i]).mws) ((r.entries[i]).handler) w :=
    serve_of_scan_match r req w ((r.entries[i]).mws, (r.entries[i]).handler)
      ((r.entries[i]).md) hscan
  refine ⟨hmain, ?_⟩
  have hlen : i < (r.entries.take (i + 1)).length := by
    simp [List.length_take]
    omega
  have hcut : ∀ j (hj : j < (r.entries.take (i + 1)).length), j < i →
      ((r.entries.take (i + 1))[j]).fullMatch req = false := by
    intro j hj hji
    have hj2 : j < r.entries.length := by
      have := hj
      simp [List.length_take] at this
      omega
    simpa [List.getElem_take] using hfirst j hj2 hji
  have hscan2 := scanEntries_first_match (r.entries.take (i + 1)) req initState i hlen
    (fun x hx => hplain x (List.mem_of_mem_take hx)) rfl (Or.inl rfl)
    (by simpa [List.getElem_take] using hmatch) hcut
  have htake := serve_of_scan_match
    { middlewares := r.middlewares, entries := r.entries.take (i + 1),
      notFoundH := r.notFoundH, methodNotAllowedH := r.methodNotAllowedH } req w
    (((r.entries.take (i + 1))[i]).mws, ((r.entries.take (i + 1))[i]).handler)
    (((r.entries.take (i + 1))[i]).md) hscan2
  rw [hmain, htake]
  simp [List.getElem_take]

/-- Claim C1 witness: on the CORS test router, whose two routes are both
registered for /foo with the first accepting GET among its methods, a GET
request to /foo is served by the first-registered route handler. -/
theorem C1_first_match_wins_witness :
    (0 < fooRouter.entries.length
     ∧ (∀ e ∈ fooRouter.entries, e.isPlain = true)
     ∧ (fooRouter.entries[0]).fullMatch { method := "GET", path := "/foo" } = true)
    ∧ serve fooRouter { method := "GET", path := "/foo" } {}
      = runChain (fooRouter.middlewares ++ (fooRouter.entries[0]).mws)
          ((fooRouter.entries[0]).handler) {} :=
  ⟨⟨by decide, by decide, by decide⟩,
   (C1_first_match_wins fooRouter { method := "GET", path := "/foo" } {} 0
     (by decide) (by decide) (by decide)
     (fun j hj hji => absurd hji (Nat.not_lt_zero j))).1⟩

/-- Claim C4: subrouter isolation on the subrouter test topologies, for every
request.  On the subrouter test router the subrouter middleware (labelled
mwSub) leaves its trace in the dispatched response exactly when dispatch
resolves through the subrouter route (a GET request to /sub/x): never for the
sibling root route, never for a method mismatch inside the subrouter, and
never for a not-found path merely sharing the /sub prefix.  On the
multi-subrouter router each subrouter middleware runs exactly for the request
dispatched through its own route, never for the sibling subrouter or for
not-found paths sharing the common prefix. -/
theorem C4_subrouter_isolation (req : Request) :
    ("mwSub" ∈ (serve subTestRouter req {}).1.body
       ↔ (req.method = "GET" ∧ req.path = "/sub/x"))
    ∧ ("first" ∈ (serve multiSubRouter req {}).1.body ↔ req.path = "/first")
    ∧ ("second" ∈ (serve multiSubRouter req {}).1.body ↔ req.path = "/second") := by
  obtain ⟨m, p⟩ := req
  refine ⟨?_, ?_, ?_⟩
  · by_cases h2 : p = "/sub/x"
    · subst h2
      by_cases h3 : m = "GET"
      · subst h3; decide
      · simp +decide [serve, resolve, matchRouter, scanEntries, entryMatch, routerFinish,
          clearNotFound, runChain, RHandler.run, pathMatches, wrapMws,
          subTestRouter, initState, h3]
    · by_cases h1 : p = "/"
      · subst h1
        by_cases h3 : m = "GET"
        · subst h3; decide
        · simp +decide [serve, resolve, matchRouter, scanEntries, entryMatch, routerFinish,
            clearNotFound, runChain, RHandler.run, pathMatches, wrapMws,
            subTestRouter, initState, h3]
      · by_cases h4 : strHasPfx "/sub" p = true
        · simp +decide [serve, resolve, matchRouter, scanEntries, entryMatch, routerFinish,
            clearNotFound, runChain, RHandler.run, pathMatches, wrapMws,
            subTestRouter, initState, h1, h2, h4]
        · simp +decide [serve, resolve, matchRouter, scanEntries, entryMatch, routerFinish,
            clearNotFound, runChain, RHandler.run, pathMatches, wrapMws,
            subTestRouter, initState, h1, h2, h4]
  · by_cases hp1 : p = "/first"
    · subst hp1
      simp +decide [serve, resolve, matchRouter, scanEntries, entryMatch, routerFinish,
        clearNotFound, runChain, RHandler.run, pathMatches, wrapMws,
        multiSubRouter, initState]
    · by_cases hp2 : p = "/second"
      · subst hp2
        simp +decide [serve, resolve, matchRouter, scanEntries, entryMatch, routerFinish,
          clearNotFound, runChain, RHandler.run, pathMatches, wrapMws,
          multiSubRouter, initState]
      · by_cases h0 : strHasPfx "/" p = true
        · simp +decide [serve, resolve, matchRouter, scanEntries, entryMatch, routerFinish,
            clearNotFound, runChain, RHandler.run, pathMatches, wrapMws,
            multiSubRouter, initState, hp1, hp2, h0]
        · simp +decide [serve, resolve, matchRouter, scanEntries, entryMatch, routerFinish,
            clearNotFound, runChain, RHandler.run, pathMatches, wrapMws,
            multiSubRouter, initState, hp1, hp2, h0]
  · by_cases hp2 : p = "/second"
    · subst hp2
      simp +decide [serve, resolve, matchRouter, scanEntries, entryMatch, routerFinish,
        clearNotFound, runChain, RHandler.run, pathMatches, wrapMws,
        multiSubRouter, initState]
    · by_cases hp1 : p = "/first"
      · subst hp1
        simp +decide [serve, resolve, matchRouter, scanEntries, entryMatch, routerFinish,
          clearNotFound, runChain, RHandler.run, pathMatches, wrapMws,
          multiSubRouter, initState]
      · by_cases h0 : strHasPfx "/" p = true
        · simp +decide [serve, resolve, matchRouter, scanEntries, entryMatch, routerFinish,
            clearNotFound, runChain, RHandler.run, pathMatches, wrapMws,
            multiSubRouter, initState, hp1, hp2, h0]
        · simp +decide [serve, resolve, matchRouter, scanEntries, entryMatch, routerFinish,
            clearNotFound, runChain, RHandler.run, pathMatches, wrapMws,
            multiSubRouter, initState, hp1, hp2, h0]

end Mux
